import Mathlib

/-!
# Verification of the Clinic-soap rule engine

Shallow embedding of the decision logic in `lipidEvidence.js` / `escRisk.js`:
the ESC/EAS risk stratifier `escEas2025RiskStratify`, the Taiwan-NHI
eligibility evaluator `getNhiEligibility` with its helpers
(`countNhiRiskFactors`, `_parseLdlMgdl`), and the free-text extractor
(`_normalizeText`, `_parseAgeSex`, `_pickNumberAfterLabels`, `_hasAny`,
`extractPatientStateFromSoap`, `getNhiEligibilityFromSoap`).

Modelling conventions:
* JavaScript finite numbers are modelled as `ℚ`.  A field that the source
  reads through `toNum` / `isFiniteNum` (which map any non-finite or
  non-numeric value to `null`) is modelled as `Option ℚ`: `some q` stands
  for an input whose numeric coercion is the finite number `q`, `none` for
  every input whose coercion fails (absent, `null` via `isFiniteNum`,
  `NaN`, non-numeric objects …).
* Fields the source reads through `!!` / `Boolean(...)` are modelled as
  `Bool` (only the truthiness of the JS value is ever used).
* String matching is modelled on `List Char` at the ASCII level, which is
  exact for the inputs considered here (the CJK synonym patterns are
  untouched by `toLowerCase`).
-/

namespace ClinicSoap

/-- The `ldlTarget` record attached to every risk assessment:
`{ mgdl, percentReduction, evidenceId }`, each possibly `null`. -/
structure LdlTarget where
  mgdl : Option ℚ
  percentReduction : Option ℚ
  evidenceId : Option String
deriving Repr, DecidableEq

/-- Return value of `escEas2025RiskStratify`:
`{ category, reasons, ldlTarget }`. -/
structure RiskAssessment where
  category : String
  reasons : List String
  ldlTarget : LdlTarget
deriving Repr, DecidableEq

/-- The patient object consumed by `escEas2025RiskStratify`, with each field
given the type produced by the coercion the source applies at its read site
(`!!` for flags, `toNum` for `ckdEgfr`/`sbp`/`ldl`, `isFiniteNum` for
`dmMajorRiskFactorCount`, `|| null` for `score2RiskCategory`; `lpa` is only
tested against `null`/`undefined`, never used). -/
structure EscPatient where
  ascvd : Bool
  diabetes : Bool
  dmTargetOrganDamage : Bool
  dmMajorRiskFactorCount : Option ℚ
  t1dmLongDuration : Bool
  ckdEgfr : Option ℚ
  sbp : Option ℚ
  ldl : Option ℚ
  fh : Bool
  score2RiskCategory : Option String
  hypertension : Bool
  smoking : Bool
  familyHistoryPrematureASCVD : Bool
  obesity : Bool
  metabolicSyndrome : Bool
  lpa : Option ℚ
deriving Repr, DecidableEq

/-- `const severeCKD = isFiniteNum(egfr) && egfr < 30;` -/
def severeCKD (p : EscPatient) : Bool :=
  match p.ckdEgfr with
  | some e => decide (e < 30)
  | none => false

/-- `const moderateCKD = isFiniteNum(egfr) && egfr >= 30 && egfr <= 59;` -/
def moderateCKD (p : EscPatient) : Bool :=
  match p.ckdEgfr with
  | some e => decide (30 ≤ e ∧ e ≤ 59)
  | none => false

/-- `const markedlyHighSBP = isFiniteNum(sbp) && sbp >= 180;` -/
def markedlyHighSBP (p : EscPatient) : Bool :=
  match p.sbp with
  | some s => decide (180 ≤ s)
  | none => false

/-- `const markedlyHighLDL = isFiniteNum(ldl) && ldl >= 190;` -/
def markedlyHighLDL (p : EscPatient) : Bool :=
  match p.ldl with
  | some l => decide (190 ≤ l)
  | none => false

/-- `diabetes && (dmTOD || (dmRF !== null && dmRF >= 3) || t1dmLong)` -/
def dmVeryHighPattern (p : EscPatient) : Bool :=
  p.diabetes &&
    (p.dmTargetOrganDamage ||
      (match p.dmMajorRiskFactorCount with
       | some c => decide (3 ≤ c)
       | none => false) ||
      p.t1dmLongDuration)

/-- `const hasSomeRF = (!!patient.hypertension) || (!!patient.smoking) ||
(!!patient.familyHistoryPrematureASCVD) || (!!patient.obesity) ||
(!!patient.metabolicSyndrome);` -/
def hasSomeRF (p : EscPatient) : Bool :=
  p.hypertension || p.smoking || p.familyHistoryPrematureASCVD ||
    p.obesity || p.metabolicSyndrome

/-- `escEas2025RiskStratify` from `escRisk.js`: the fixed-priority decision
ladder, translated branch by branch.  The `lpa` field is deliberately dead
in the source (the guard `if (patient.lpa === null || patient.lpa ===
undefined) { /* explicitly do nothing */ }` has an empty body and `lpa`
appears nowhere else), so it is not read here either. -/
def escEas2025RiskStratify (p : EscPatient) : RiskAssessment :=
  if p.ascvd then
    { category := "very_high"
      reasons := ["Established ASCVD → very-high risk."]
      ldlTarget := ⟨some 55, some 50, some "ESC2025_LDL_VERY_HIGH_RISK"⟩ }
  else if severeCKD p then
    { category := "very_high"
      reasons := ["Severe CKD (eGFR <30) → very-high risk."]
      ldlTarget := ⟨some 55, some 50, some "ESC2025_LDL_CKD_SEVERE"⟩ }
  else if dmVeryHighPattern p then
    { category := "very_high"
      reasons := ["Diabetes with target organ damage or ≥3 major RF or long-duration T1DM → very-high risk."]
      ldlTarget := ⟨some 55, some 50, some "ESC2025_LDL_DM_VERY_HIGH"⟩ }
  else if p.score2RiskCategory = some "very_high" then
    { category := "very_high"
      reasons := ["Caller-provided SCORE2 category = very_high."]
      ldlTarget := ⟨some 55, some 50, some "ESC2025_LDL_VERY_HIGH_RISK"⟩ }
  else if moderateCKD p then
    { category := "high"
      reasons := ["Moderate CKD (eGFR 30–59) → high risk."]
      ldlTarget := ⟨some 70, some 50, some "ESC2025_LDL_CKD_MODERATE"⟩ }
  else if markedlyHighSBP p || markedlyHighLDL p then
    { category := "high"
      reasons :=
        (if markedlyHighSBP p then ["Markedly elevated SBP (≥180 mmHg) → high risk."] else []) ++
        (if markedlyHighLDL p then ["Markedly elevated LDL-C (≥190 mg/dL) → high risk."] else [])
      ldlTarget := ⟨some 70, some 50, some "ESC2025_LDL_HIGH_RISK"⟩ }
  else if p.diabetes then
    { category := "high"
      reasons := ["Diabetes without very-high features → high risk (engineering default; refine per your evidence pack)."]
      ldlTarget := ⟨some 70, some 50, some "ESC2025_LDL_DM_HIGH"⟩ }
  else if p.score2RiskCategory = some "high" then
    { category := "high"
      reasons := ["Caller-provided SCORE2 category = high."]
      ldlTarget := ⟨some 70, some 50, some "ESC2025_LDL_HIGH_RISK"⟩ }
  else if hasSomeRF p || p.fh then
    { category := "moderate"
      reasons :=
        (if p.fh then ["Possible familial hypercholesterolemia noted (needs confirmation)."] else []) ++
        ["No very-high/high ESC features detected → treat as moderate risk by default; consider lifetime risk & shared decision."]
      ldlTarget := ⟨none, none, none⟩ }
  else
    { category := "low"
      reasons := ["No major ESC very-high/high features detected → low risk by default."]
      ldlTarget := ⟨none, none, none⟩ }

/-- One rule of the priority ladder of the specification: a predicate and the
category it fixes when it is the first to match. -/
structure LadderRule where
  pred : EscPatient → Bool
  category : String

/-- The ten-rule ladder exactly as the specification words it (Section 4.3,
rules 1–10), used as the reference for the first-match-wins refinement:
ASCVD; severe kidney impairment; diabetes-very-high patterns; external
very_high score; moderate kidney impairment; markedly elevated SBP/lipid;
diabetes; external high score; risk-enhancer/FH moderate; otherwise low. -/
def specRiskLadder : List LadderRule :=
  [ ⟨fun p => p.ascvd, "very_high"⟩,
    ⟨fun p => severeCKD p, "very_high"⟩,
    ⟨fun p => dmVeryHighPattern p, "very_high"⟩,
    ⟨fun p => decide (p.score2RiskCategory = some "very_high"), "very_high"⟩,
    ⟨fun p => moderateCKD p, "high"⟩,
    ⟨fun p => markedlyHighSBP p || markedlyHighLDL p, "high"⟩,
    ⟨fun p => p.diabetes, "high"⟩,
    ⟨fun p => decide (p.score2RiskCategory = some "high"), "high"⟩,
    ⟨fun p => hasSomeRF p || p.fh, "moderate"⟩,
    ⟨fun _ => true, "low"⟩ ]

/-- First-match-wins evaluation of a rule ladder: the earliest rule whose
predicate holds fixes the category; later rules are never consulted. -/
def firstMatchCategory : List LadderRule → EscPatient → String
  | [], _ => "unknown"
  | r :: rs, p => if r.pred p then r.category else firstMatchCategory rs p

/-- A JS value in the `LDL` position: a finite number, a string, or anything
else (`null`, `undefined`, `NaN`, objects, …), which `_parseLdlMgdl` treats
alike. -/
inductive LdlInput
  | num (q : ℚ)
  | str (s : String)
  | other
deriving Repr, DecidableEq

/-- `10*a + digit` accumulator: value of a digit run, most significant
first. -/
def digitsToNat (ds : List Char) : ℕ :=
  ds.foldl (fun a c => 10 * a + (c.toNat - '0'.toNat)) 0

/-- Value of an integer part together with an optional fraction digit run,
as `Number` yields it for `"<int>.<frac>"`. -/
def ratOfDigits (intDs fracDs : List Char) : ℚ :=
  (digitsToNat intDs : ℚ) + (digitsToNat fracDs : ℚ) / (10 : ℚ) ^ fracDs.length

/-- The first `(\d+(\.\d+)?)` run of a character list: scan to the first
digit, take the maximal digit run, then a fraction when a dot followed by
at least one digit comes right after. -/
def firstNumberRun : List Char → Option ℚ
  | [] => none
  | c :: cs =>
    if c.isDigit then
      let p := List.span Char.isDigit (c :: cs)
      match p.2 with
      | '.' :: r2 =>
        let f := List.span Char.isDigit r2
        if f.1 = [] then some (digitsToNat p.1 : ℚ)
        else some (ratOfDigits p.1 f.1)
      | _ => some (digitsToNat p.1 : ℚ)
    else firstNumberRun cs

/-- `_parseLdlMgdl`: a finite number is returned as is; a string has its
commas removed and its first decimal/integer run extracted; anything else
gives `null`. -/
def parseLdlMgdl : LdlInput → Option ℚ
  | .num q => some q
  | .str s => firstNumberRun (s.data.filter (· ≠ ','))
  | .other => none

/-- One matched NHI risk factor: `{ id, label }`. -/
structure RFMatch where
  id : String
  label : String
deriving Repr, DecidableEq

/-- The patient object consumed by `countNhiRiskFactors` /
`getNhiEligibility`: `sex` is compared against the strings `"M"`/`"F"`
(`none` = absent/null), `age` is guarded by `_isFiniteNum`, the history
flags are read by `Boolean(...)`, and `LDL` goes through `_parseLdlMgdl`. -/
structure NhiPatient where
  sex : Option String
  age : Option ℚ
  hasHTN : Bool
  onAntiHTNMeds : Bool
  hasDM : Bool
  currentSmoker : Bool
  fhPrematureASCVD : Bool
  hasACS : Bool
  hasPCI : Bool
  hasCABG : Bool
  LDL : LdlInput
deriving Repr, DecidableEq

/-- `countNhiRiskFactors`: the list of matched risk factors, accumulated in
the fixed evaluation order of the source (male age, female age, hypertension,
diabetes, smoking, family history). -/
def nhiMatchedRiskFactors (p : NhiPatient) : List RFMatch :=
  (if decide (p.sex = some "M") && (match p.age with | some a => decide (45 ≤ a) | none => false) then
    [⟨"NHI_RF_AGE_MALE", "Age male ≥45"⟩] else []) ++
  (if decide (p.sex = some "F") && (match p.age with | some a => decide (55 ≤ a) | none => false) then
    [⟨"NHI_RF_AGE_FEMALE", "Age female ≥55"⟩] else []) ++
  (if p.hasHTN || p.onAntiHTNMeds then [⟨"NHI_RF_HYPERTENSION", "Hypertension"⟩] else []) ++
  (if p.hasDM then [⟨"NHI_RF_DIABETES", "Diabetes"⟩] else []) ++
  (if p.currentSmoker then [⟨"NHI_RF_SMOKING", "Current smoking"⟩] else []) ++
  (if p.fhPrematureASCVD then [⟨"NHI_RF_FAMILY_HISTORY", "FH premature ASCVD"⟩] else [])

/-- `countNhiRiskFactors(...).count = matched.length`. -/
def countNhiRiskFactors (p : NhiPatient) : ℕ :=
  (nhiMatchedRiskFactors p).length

/-- Return value of `getNhiEligibility`. -/
structure EligibilityResult where
  category : String
  ldl_mgdl : Option ℚ
  riskFactorCount : ℕ
  matchedRiskFactors : List RFMatch
  eligible : Bool
  threshold_mgdl : Option ℚ
  goal_mgdl : Option ℚ
  rationale : List String
  reminders : List String
deriving Repr, DecidableEq

/-- `const isSecondary = Boolean(patient?.hasACS) || Boolean(patient?.hasPCI)
|| Boolean(patient?.hasCABG);` -/
def isSecondary (p : NhiPatient) : Bool :=
  p.hasACS || p.hasPCI || p.hasCABG

/-- `getNhiEligibility`, translated branch by branch: missing/invalid LDL
short-circuits with an empty reminder list; secondary prevention applies the
70 threshold and its three fixed reminders; primary prevention applies the
130 / 160 / undefined tiers and the audit reminder. -/
def getNhiEligibility (p : NhiPatient) : EligibilityResult :=
  let ldl := parseLdlMgdl p.LDL
  let rfCount := countNhiRiskFactors p
  let rfMatched := nhiMatchedRiskFactors p
  let category := if isSecondary p then "secondary_prevention" else "primary_prevention"
  match ldl with
  | none =>
    { category := category, ldl_mgdl := none, riskFactorCount := rfCount
      matchedRiskFactors := rfMatched, eligible := false
      threshold_mgdl := none, goal_mgdl := none
      rationale := ["LDL value missing/invalid → cannot determine NHI eligibility."]
      reminders := [] }
  | some l =>
    if isSecondary p then
      { category := category, ldl_mgdl := some l, riskFactorCount := rfCount
        matchedRiskFactors := rfMatched
        eligible := decide (70 ≤ l)
        threshold_mgdl := some 70, goal_mgdl := some 70
        rationale :=
          [if 70 ≤ l then "Secondary prevention (ACS/PCI/CABG) + LDL ≥70 → eligible per NHI 2.6.1 logic."
           else "Secondary prevention present but LDL <70 → does not meet NHI start threshold (2.6.1)."]
        reminders :=
          ["Follow-up lipids: Year 1 every 3–6 months; Year ≥2 every 6–12 months.",
           "Document safety monitoring: liver function abnormality and rhabdomyolysis.",
           "Lifestyle modification may be done in parallel with drug therapy (no mandatory lifestyle-only trial first)."] }
    else if 2 ≤ rfCount then
      { category := category, ldl_mgdl := some l, riskFactorCount := rfCount
        matchedRiskFactors := rfMatched
        eligible := decide (130 ≤ l)
        threshold_mgdl := some 130, goal_mgdl := none
        rationale :=
          [if 130 ≤ l then "Primary prevention + ≥2 risk factors + LDL ≥130 → eligible (operational NHI rule)."
           else "Primary prevention + ≥2 risk factors but LDL <130 → not eligible by threshold."]
        reminders := ["Ensure risk factors are explicitly documented (HTN/DM/smoking/age/FH) for auditability."] }
    else if 1 ≤ rfCount then
      { category := category, ldl_mgdl := some l, riskFactorCount := rfCount
        matchedRiskFactors := rfMatched
        eligible := decide (160 ≤ l)
        threshold_mgdl := some 160, goal_mgdl := none
        rationale :=
          [if 160 ≤ l then "Primary prevention + ≥1 risk factor + LDL ≥160 → eligible (operational NHI rule)."
           else "Primary prevention + ≥1 risk factor but LDL <160 → not eligible by threshold."]
        reminders := ["Ensure risk factors are explicitly documented (HTN/DM/smoking/age/FH) for auditability."] }
    else
      { category := category, ldl_mgdl := some l, riskFactorCount := rfCount
        matchedRiskFactors := rfMatched
        eligible := false
        threshold_mgdl := none, goal_mgdl := none
        rationale := ["Primary prevention + 0 risk factors → operational rule not defined here."]
        reminders := ["Ensure risk factors are explicitly documented (HTN/DM/smoking/age/FH) for auditability."] }

/-- JS regex word character `\w` = `[A-Za-z0-9_]` (ASCII). -/
def isWordChar (c : Char) : Bool :=
  c.isAlphanum || c = '_'

/-- JS regex whitespace `\s` (members that can occur in the inputs
considered: space, tab, newline, carriage return, form/vertical feed,
no-break space). -/
def isSpaceChar (c : Char) : Bool :=
  c = ' ' || c = '\t' || c = '\n' || c = '\r' || c = '\x0b' || c = '\x0c' || c = ' '

/-- Character-level composition of the replacements of `_normalizeText`
(`\r`→`\n`, full-width comma/enumeration comma→`,`, full-width colon→`:`,
no-break space→space) followed by lower-casing (ASCII-exact). -/
def normalizeChar (c : Char) : Char :=
  if c = '\r' then '\n'
  else if c = '，' || c = '、' then ','
  else if c = '：' then ':'
  else if c = ' ' then ' '
  else c.toLower

/-- `_normalizeText`, as a character list. -/
def normalizeText (s : String) : List Char :=
  s.data.map normalizeChar

/-- `hay.includes(sub)`: `sub` occurs as a contiguous run of `hay`. -/
def hasSubstr (sub : List Char) : List Char → Bool
  | [] => sub.isEmpty
  | c :: cs => sub.isPrefixOf (c :: cs) || hasSubstr sub cs

/-- Scan for `\b<w>\b` (with `w` a nonempty run of word characters),
carrying the previous character to decide the left boundary. -/
def hasWordAux (w : List Char) (prev : Option Char) : List Char → Bool
  | [] => false
  | c :: cs =>
    ((match prev with | none => true | some d => !isWordChar d) &&
      w.isPrefixOf (c :: cs) &&
      (match (c :: cs).drop w.length with | [] => true | d :: _ => !isWordChar d)) ||
    hasWordAux w (some c) cs

/-- `/\b<w>\b/.test(text)`. -/
def hasWord (w : List Char) (cs : List Char) : Bool :=
  hasWordAux w none cs

/-- A pattern of `_hasAny`: either a literal substring (matched with
`includes`) or a word-bounded token (`/\b...\b/`). -/
inductive Pat
  | sub (s : String)
  | word (s : String)

/-- Matching one pattern against normalized text. -/
def patMatch (t : List Char) : Pat → Bool
  | .sub s => hasSubstr s.data t
  | .word s => hasWord s.data t

/-- `_hasAny(text, patterns)`. -/
def hasAnyPat (t : List Char) (ps : List Pat) : Bool :=
  ps.any (patMatch t)

/-- Greedy `\s*`. -/
def skipWs (cs : List Char) : List Char :=
  cs.dropWhile isSpaceChar

/-- Attempt of `` `${lab}\s*[:=]?\s*(\d{2,3}(?:\.\d+)?)` `` anchored at the
start of `cs`: the literal label, optional whitespace, an optional colon or
equals sign, optional whitespace, then a 2–3 digit number.  A digit run of
length ≥ 4 yields the greedy 3-digit capture with no fraction (the fourth
digit blocks the `(?:\.\d+)?` group); a run of length ≤ 1 fails. -/
def numberAfterLabelAt (lab : List Char) (cs : List Char) : Option ℚ :=
  if lab.isPrefixOf cs then
    let r1 := skipWs (cs.drop lab.length)
    let r2 := match r1 with
      | c :: t => if c = ':' || c = '=' then t else r1
      | [] => r1
    let r3 := skipWs r2
    let p := List.span Char.isDigit r3
    if p.1.length < 2 then none
    else if p.1.length ≤ 3 then
      match p.2 with
      | '.' :: r4 =>
        let f := List.span Char.isDigit r4
        if f.1 = [] then some (digitsToNat p.1 : ℚ)
        else some (ratOfDigits p.1 f.1)
      | _ => some (digitsToNat p.1 : ℚ)
    else some (digitsToNat (p.1.take 3) : ℚ)
  else none

/-- Leftmost match of the label-number pattern anywhere in the text. -/
def pickNumberForLabel (lab : List Char) : List Char → Option ℚ
  | [] => numberAfterLabelAt lab []
  | c :: cs =>
    match numberAfterLabelAt lab (c :: cs) with
    | some v => some v
    | none => pickNumberForLabel lab cs

/-- `_pickNumberAfterLabels`: the first label (in list order) that matches
anywhere in the text supplies the value. -/
def pickNumberAfterLabels (t : List Char) : List String → Option ℚ
  | [] => none
  | lab :: rest =>
    match pickNumberForLabel lab.data t with
    | some v => some v
    | none => pickNumberAfterLabels t rest

/-- The unit alternation `(y\/o|yo|yr|yrs|year|years)?` of the age/sex
pattern: the remainders after each alternative that matches, in regex
backtracking order, with the empty (skipped) alternative last. -/
def unitCandidates (r1 : List Char) : List (List Char) :=
  ((["y/o", "yo", "yr", "yrs", "year", "years"].map String.data).filterMap
    (fun u => if u.isPrefixOf r1 then some (r1.drop u.length) else none)) ++ [r1]

/-- The `\s*(m|f)\b` tail of the age/sex pattern. -/
def sexTailMatch (r2 : List Char) : Option Char :=
  match skipWs r2 with
  | c :: r4 =>
    if (c = 'm' || c = 'f') &&
        (match r4 with | [] => true | d :: _ => !isWordChar d) then some c
    else none
  | [] => none

/-- Attempt of `/\b(\d{1,3})\s*(y\/o|yo|yr|yrs|year|years)?\s*(m|f)\b/`
anchored at the current position (`prev` is the character before it, for
the left word boundary).  A digit run of length ≥ 4 can never match: every
greedy split of `\d{1,3}` leaves a digit where a unit, whitespace, or
`m`/`f` is required. -/
def matchAgeSexAt (prev : Option Char) (cs : List Char) : Option (ℕ × Char) :=
  let boundary : Bool := match prev with | none => true | some d => !isWordChar d
  let p := List.span Char.isDigit cs
  if boundary && !p.1.isEmpty && p.1.length ≤ 3 then
    match (unitCandidates (skipWs p.2)).findSome? sexTailMatch with
    | some sx => some (digitsToNat p.1, sx)
    | none => none
  else none

/-- Leftmost match of the age/sex pattern. -/
def findAgeSex (prev : Option Char) : List Char → Option (ℕ × Char)
  | [] => none
  | c :: cs =>
    match matchAgeSexAt prev (c :: cs) with
    | some r => some r
    | none => findAgeSex (some c) cs

/-- Attempt of `/\bage\s*[:=]?\s*(\d{1,3})\b/` anchored at the current
position.  The trailing `\b` forces the captured run to be followed by a
non-word character or the end of the text, and a run of length ≥ 4 can
never match (every greedy split leaves a digit-digit boundary). -/
def matchAgeLabelAt (prev : Option Char) (cs : List Char) : Option ℕ :=
  let boundary : Bool := match prev with | none => true | some d => !isWordChar d
  if boundary && ("age".data.isPrefixOf cs) then
    let r1 := skipWs (cs.drop 3)
    let r2 := match r1 with
      | c :: t => if c = ':' || c = '=' then t else r1
      | [] => r1
    let r3 := skipWs r2
    let p := List.span Char.isDigit r3
    if !p.1.isEmpty && p.1.length ≤ 3 &&
        (match p.2 with | [] => true | d :: _ => !isWordChar d) then
      some (digitsToNat p.1)
    else none
  else none

/-- Leftmost match of the `age:` label pattern. -/
def findAgeLabel (prev : Option Char) : List Char → Option ℕ
  | [] => none
  | c :: cs =>
    match matchAgeLabelAt prev (c :: cs) with
    | some r => some r
    | none => findAgeLabel (some c) cs

/-- `_parseAgeSex`: the compact pattern first (both fields), then the
word fallbacks for sex (the female check runs after, and overrides, the
male check), then the `age:` label fallback when age is still falsy. -/
def parseAgeSex (t : List Char) : Option ℚ × Option String :=
  let m1 := findAgeSex none t
  let age0 : Option ℚ := m1.map (fun x => (x.1 : ℚ))
  let sex0 : Option String := m1.map (fun x => if x.2 = 'm' then "M" else "F")
  let sex1 : Option String :=
    if sex0 = none then
      let sa : Option String :=
        if hasWord "male".data t || hasWord "man".data t then some "M" else none
      if hasWord "female".data t || hasWord "woman".data t then some "F" else sa
    else sex0
  let age1 : Option ℚ :=
    if age0 = none ∨ age0 = some 0 then
      match findAgeLabel none t with
      | some a => some (a : ℚ)
      | none => age0
    else age0
  (age1, sex1)

/-- Labels tried, in order, for the LDL value. -/
def ldlLabels : List String :=
  ["ldl-c", "ldl c", "ldl", "low-density lipoprotein", "low density lipoprotein",
   "低密度膽固醇", "低密度"]

/-- Pattern lists of the extractor, one per boolean flag. -/
def acsPats : List Pat :=
  [.word "acs", .sub "acute coronary syndrome", .sub "unstable angina", .word "stemi",
   .word "nstemi", .sub "myocardial infarction", .word "ami", .sub "acute mi",
   .sub "急性冠心症", .sub "心肌梗塞"]

def pciPats : List Pat :=
  [.word "pci", .sub "stent", .sub "ptca", .sub "percutaneous coronary intervention",
   .sub "支架"]

def cabgPats : List Pat :=
  [.word "cabg", .sub "coronary artery bypass", .sub "bypass surgery", .sub "繞道手術"]

def htnPats : List Pat :=
  [.word "htn", .sub "hypertension", .sub "high blood pressure", .sub "高血壓"]

def antiHtnMedPats : List Pat :=
  [.sub "amlodipine", .sub "norvasc", .sub "losartan", .sub "valsartan",
   .sub "candesartan", .sub "telmisartan", .sub "olmesartan", .sub "irbesartan",
   .sub "enalapril", .sub "lisinopril", .sub "ramipril", .sub "perindopril",
   .sub "bisoprolol", .sub "carvedilol", .sub "metoprolol", .sub "nebivolol",
   .sub "hctz", .sub "hydrochlorothiazide", .sub "indapamide", .sub "chlorthalidone",
   .sub "spironolactone", .sub "eplerenone", .sub "降壓藥"]

def dmPats : List Pat :=
  [.word "dm", .sub "diabetes", .sub "type 2 diabetes", .sub "type 1 diabetes",
   .sub "糖尿病", .sub "metformin", .sub "glucophage", .sub "sitagliptin",
   .sub "linagliptin", .sub "empagliflozin", .sub "dapagliflozin",
   .sub "canagliflozin", .sub "liraglutide", .sub "semaglutide", .sub "insulin",
   .sub "lantus", .sub "humalog"]

def smokerPats : List Pat :=
  [.sub "smoker", .sub "smoking", .sub "current smoker", .sub "cigarette",
   .sub "pack-year", .sub "抽菸", .sub "吸菸"]

def fhPats : List Pat :=
  [.sub "family history of premature", .sub "fh premature", .sub "premature cad in family",
   .sub "早發心血管家族史", .sub "早發心臟病家族史", .sub "家族史 早發"]

/-- Output of `extractPatientStateFromSoap` (the purely diagnostic `_debug`
field of the source, unused by all downstream logic, is not modelled). -/
structure PatientState where
  age : Option ℚ
  sex : Option String
  LDL : Option ℚ
  hasACS : Bool
  hasPCI : Bool
  hasCABG : Bool
  hasHTN : Bool
  onAntiHTNMeds : Bool
  hasDM : Bool
  currentSmoker : Bool
  fhPrematureASCVD : Bool
deriving Repr, DecidableEq

/-- `extractPatientStateFromSoap`. -/
def extractPatientStateFromSoap (soap : String) : PatientState :=
  let t := normalizeText soap
  let asx := parseAgeSex t
  { age := asx.1
    sex := asx.2
    LDL := pickNumberAfterLabels t ldlLabels
    hasACS := hasAnyPat t acsPats
    hasPCI := hasAnyPat t pciPats
    hasCABG := hasAnyPat t cabgPats
    hasHTN := hasAnyPat t htnPats
    onAntiHTNMeds := hasAnyPat t antiHtnMedPats
    hasDM := hasAnyPat t dmPats
    currentSmoker := hasAnyPat t smokerPats
    fhPrematureASCVD := hasAnyPat t fhPats }

/-- `getNhiEligibilityFromSoap`: extract, then evaluate (a numeric extracted
LDL is passed as a JS number; a missing one as `null`). -/
def getNhiEligibilityFromSoap (soap : String) : EligibilityResult :=
  let ps := extractPatientStateFromSoap soap
  getNhiEligibility
    { sex := ps.sex, age := ps.age
      LDL := match ps.LDL with | some q => .num q | none => .other
      hasACS := ps.hasACS, hasPCI := ps.hasPCI, hasCABG := ps.hasCABG
      hasHTN := ps.hasHTN, onAntiHTNMeds := ps.onAntiHTNMeds, hasDM := ps.hasDM
      currentSmoker := ps.currentSmoker, fhPrematureASCVD := ps.fhPrematureASCVD }

/-- A patient record with every flag false and every optional field absent,
the base point for concrete instantiations. -/
def escP0 : EscPatient :=
  { ascvd := false, diabetes := false, dmTargetOrganDamage := false
    dmMajorRiskFactorCount := none, t1dmLongDuration := false
    ckdEgfr := none, sbp := none, ldl := none, fh := false
    score2RiskCategory := none, hypertension := false, smoking := false
    familyHistoryPrematureASCVD := false, obesity := false
    metabolicSyndrome := false, lpa := none }

/-- C1: for every patient record with the established-atherosclerotic-disease
flag true, `escEas2025RiskStratify` returns category `very_high` with lipid
target threshold 55 and percent reduction 50, regardless of all other
fields. -/
theorem ascvd_forces_very_high (p : EscPatient) (h : p.ascvd = true) :
    (escEas2025RiskStratify p).category = "very_high" ∧
    (escEas2025RiskStratify p).ldlTarget.mgdl = some 55 ∧
    (escEas2025RiskStratify p).ldlTarget.percentReduction = some 50 := by
  simp [escEas2025RiskStratify, h]

/-- C1 witness: the ASCVD theorem applied at a concrete patient. -/
theorem ascvd_forces_very_high_witness :
    ({ escP0 with ascvd := true } : EscPatient).ascvd = true ∧
    ((escEas2025RiskStratify { escP0 with ascvd := true }).category = "very_high" ∧
     (escEas2025RiskStratify { escP0 with ascvd := true }).ldlTarget.mgdl = some 55 ∧
     (escEas2025RiskStratify { escP0 with ascvd := true }).ldlTarget.percentReduction = some 50) :=
  ⟨rfl, ascvd_forces_very_high { escP0 with ascvd := true } rfl⟩

set_option maxHeartbeats 1000000 in
/-- C2: the risk classifier is a strict priority ladder with
first-match-wins semantics: its category always equals the first-match
evaluation of the ten-rule ladder as the specification orders it, so no
later rule can change or downgrade a category fixed by an earlier rule. -/
theorem risk_ladder_first_match (p : EscPatient) :
    (escEas2025RiskStratify p).category = firstMatchCategory specRiskLadder p := by
  simp only [specRiskLadder, firstMatchCategory, escEas2025RiskStratify,
    decide_eq_true_eq]
  split_ifs <;> rfl

/-- C7: for every patient record whose kidney filtration rate coerces to a
number strictly below 30 and whose ASCVD flag is false,
`escEas2025RiskStratify` returns `very_high` with the severe-CKD citation
(target 55, 50% reduction, `ESC2025_LDL_CKD_SEVERE`). -/
theorem severe_ckd_forces_very_high (p : EscPatient) (e : ℚ) (h1 : p.ascvd = false)
    (h2 : p.ckdEgfr = some e) (h3 : e < 30) :
    (escEas2025RiskStratify p).category = "very_high" ∧
    (escEas2025RiskStratify p).ldlTarget =
      ⟨some 55, some 50, some "ESC2025_LDL_CKD_SEVERE"⟩ := by
  have hs : severeCKD p = true := by simp [severeCKD, h2, h3]
  simp [escEas2025RiskStratify, h1, hs]

/-- C7 witness: the severe-CKD theorem applied at a concrete patient with
eGFR 25. -/
theorem severe_ckd_forces_very_high_witness :
    ({ escP0 with ckdEgfr := some 25 } : EscPatient).ascvd = false ∧
    ({ escP0 with ckdEgfr := some 25 } : EscPatient).ckdEgfr = some 25 ∧
    (25 : ℚ) < 30 ∧
    ((escEas2025RiskStratify { escP0 with ckdEgfr := some 25 }).category = "very_high" ∧
     (escEas2025RiskStratify { escP0 with ckdEgfr := some 25 }).ldlTarget =
       ⟨some 55, some 50, some "ESC2025_LDL_CKD_SEVERE"⟩) :=
  ⟨rfl, rfl, by norm_num,
    severe_ckd_forces_very_high { escP0 with ckdEgfr := some 25 } 25 rfl rfl (by norm_num)⟩

/-- C8: the classifier output is independent of the lipoprotein(a) field:
two patient records that agree on everything except `lpa` (absent, null, or
any value) give the same category, reasons, and lipid target. -/
theorem lpa_never_changes_stratification (p : EscPatient) (v : Option ℚ) :
    escEas2025RiskStratify { p with lpa := v } = escEas2025RiskStratify p :=
  rfl

/-- An NHI patient record with every flag false and every field absent, the
base point for concrete instantiations. -/
def nhiP0 : NhiPatient :=
  { sex := none, age := none, hasHTN := false, onAntiHTNMeds := false
    hasDM := false, currentSmoker := false, fhPrematureASCVD := false
    hasACS := false, hasPCI := false, hasCABG := false, LDL := .other }

/-- C3: whenever the lipid field yields no parseable number,
`getNhiEligibility` returns `eligible = false` with threshold and goal left
unknown, a single rationale about the missing value, and no reminders —
the threshold tiers are never applied. -/
theorem missing_ldl_short_circuits (p : NhiPatient)
    (h : parseLdlMgdl p.LDL = none) :
    (getNhiEligibility p).eligible = false ∧
    (getNhiEligibility p).threshold_mgdl = none ∧
    (getNhiEligibility p).goal_mgdl = none ∧
    (getNhiEligibility p).rationale =
      ["LDL value missing/invalid → cannot determine NHI eligibility."] ∧
    (getNhiEligibility p).reminders = [] := by
  simp [getNhiEligibility, h]

/-- C3 witness: the missing-lipid theorem applied at a concrete record. -/
theorem missing_ldl_short_circuits_witness :
    parseLdlMgdl (nhiP0 : NhiPatient).LDL = none ∧
    ((getNhiEligibility nhiP0).eligible = false ∧
     (getNhiEligibility nhiP0).threshold_mgdl = none ∧
     (getNhiEligibility nhiP0).goal_mgdl = none ∧
     (getNhiEligibility nhiP0).rationale =
       ["LDL value missing/invalid → cannot determine NHI eligibility."] ∧
     (getNhiEligibility nhiP0).reminders = []) :=
  ⟨rfl, missing_ldl_short_circuits nhiP0 rfl⟩

/-- C4: with a parseable lipid value and any of ACS / PCI / CABG true,
`getNhiEligibility` classifies the case as secondary prevention with
threshold 70 and goal 70, is eligible exactly when the lipid value is ≥ 70,
and its reminders include the follow-up cadence, safety-monitoring, and
parallel-lifestyle statements. -/
theorem secondary_prevention_eval (p : NhiPatient) (l : ℚ)
    (hl : parseLdlMgdl p.LDL = some l)
    (hs : p.hasACS = true ∨ p.hasPCI = true ∨ p.hasCABG = true) :
    (getNhiEligibility p).category = "secondary_prevention" ∧
    (getNhiEligibility p).threshold_mgdl = some 70 ∧
    (getNhiEligibility p).goal_mgdl = some 70 ∧
    ((getNhiEligibility p).eligible = true ↔ 70 ≤ l) ∧
    "Follow-up lipids: Year 1 every 3–6 months; Year ≥2 every 6–12 months."
      ∈ (getNhiEligibility p).reminders ∧
    "Document safety monitoring: liver function abnormality and rhabdomyolysis."
      ∈ (getNhiEligibility p).reminders ∧
    "Lifestyle modification may be done in parallel with drug therapy (no mandatory lifestyle-only trial first)."
      ∈ (getNhiEligibility p).reminders := by
  have hsec : isSecondary p = true := by
    rcases hs with h | h | h <;> simp [isSecondary, h]
  simp [getNhiEligibility, hl, hsec]

/-- C4 witness: the secondary-prevention theorem applied at a concrete
record with a PCI history and LDL 92. -/
theorem secondary_prevention_eval_witness :
    parseLdlMgdl ({ nhiP0 with hasPCI := true, LDL := .num 92 } : NhiPatient).LDL = some 92 ∧
    ({ nhiP0 with hasPCI := true, LDL := .num 92 } : NhiPatient).hasPCI = true ∧
    ((getNhiEligibility { nhiP0 with hasPCI := true, LDL := .num 92 }).category = "secondary_prevention" ∧
     (getNhiEligibility { nhiP0 with hasPCI := true, LDL := .num 92 }).threshold_mgdl = some 70 ∧
     (getNhiEligibility { nhiP0 with hasPCI := true, LDL := .num 92 }).goal_mgdl = some 70 ∧
     ((getNhiEligibility { nhiP0 with hasPCI := true, LDL := .num 92 }).eligible = true ↔ (70 : ℚ) ≤ 92) ∧
     "Follow-up lipids: Year 1 every 3–6 months; Year ≥2 every 6–12 months."
       ∈ (getNhiEligibility { nhiP0 with hasPCI := true, LDL := .num 92 }).reminders ∧
     "Document safety monitoring: liver function abnormality and rhabdomyolysis."
       ∈ (getNhiEligibility { nhiP0 with hasPCI := true, LDL := .num 92 }).reminders ∧
     "Lifestyle modification may be done in parallel with drug therapy (no mandatory lifestyle-only trial first)."
       ∈ (getNhiEligibility { nhiP0 with hasPCI := true, LDL := .num 92 }).reminders) :=
  ⟨rfl, rfl,
    secondary_prevention_eval { nhiP0 with hasPCI := true, LDL := .num 92 } 92 rfl
      (Or.inr (Or.inl rfl))⟩

/-- C5: for a primary-prevention record with a parseable lipid value, the
tiers are: count ≥ 2 ⇒ threshold 130 and eligible iff lipid ≥ 130; count
exactly 1 ⇒ threshold 160 and eligible iff lipid ≥ 160; count 0 ⇒ threshold
unknown, not eligible, with the rule-undefined rationale. -/
theorem primary_prevention_tiers (p : NhiPatient) (l : ℚ)
    (hl : parseLdlMgdl p.LDL = some l) (hp : isSecondary p = false) :
    (2 ≤ countNhiRiskFactors p →
      (getNhiEligibility p).threshold_mgdl = some 130 ∧
      ((getNhiEligibility p).eligible = true ↔ 130 ≤ l)) ∧
    (countNhiRiskFactors p = 1 →
      (getNhiEligibility p).threshold_mgdl = some 160 ∧
      ((getNhiEligibility p).eligible = true ↔ 160 ≤ l)) ∧
    (countNhiRiskFactors p = 0 →
      (getNhiEligibility p).threshold_mgdl = none ∧
      (getNhiEligibility p).eligible = false ∧
      (getNhiEligibility p).rationale =
        ["Primary prevention + 0 risk factors → operational rule not defined here."]) := by
  refine ⟨fun h2 => ?_, fun h1 => ?_, fun h0 => ?_⟩
  · simp [getNhiEligibility, hl, hp, h2]
  · have hn2 : ¬ 2 ≤ countNhiRiskFactors p := by omega
    have hn1 : 1 ≤ countNhiRiskFactors p := by omega
    simp [getNhiEligibility, hl, hp, hn2, hn1]
  · have hn2 : ¬ 2 ≤ countNhiRiskFactors p := by omega
    have hn1 : ¬ 1 ≤ countNhiRiskFactors p := by omega
    simp [getNhiEligibility, hl, hp, hn2, hn1]

/-- C5 witness: the primary-tier theorem applied at a concrete record with
no history flags (count 0) and LDL 150. -/
theorem primary_prevention_tiers_witness :
    parseLdlMgdl ({ nhiP0 with LDL := .num 150 } : NhiPatient).LDL = some 150 ∧
    isSecondary { nhiP0 with LDL := .num 150 } = false ∧
    countNhiRiskFactors { nhiP0 with LDL := .num 150 } = 0 ∧
    ((getNhiEligibility { nhiP0 with LDL := .num 150 }).threshold_mgdl = none ∧
     (getNhiEligibility { nhiP0 with LDL := .num 150 }).eligible = false ∧
     (getNhiEligibility { nhiP0 with LDL := .num 150 }).rationale =
       ["Primary prevention + 0 risk factors → operational rule not defined here."]) :=
  ⟨rfl, rfl, rfl,
    (primary_prevention_tiers { nhiP0 with LDL := .num 150 } 150 rfl rfl).2.2 rfl⟩

/-- C9: for primary prevention the threshold is a non-increasing step
function of the risk-factor count: any record at count ≥ 2 gets threshold
130 and any record at count 1 gets threshold 160, and 130 ≤ 160. -/
theorem primary_threshold_monotone (p1 p2 : NhiPatient) (l1 l2 : ℚ)
    (hl1 : parseLdlMgdl p1.LDL = some l1) (hp1 : isSecondary p1 = false)
    (hl2 : parseLdlMgdl p2.LDL = some l2) (hp2 : isSecondary p2 = false)
    (hc1 : 2 ≤ countNhiRiskFactors p1) (hc2 : countNhiRiskFactors p2 = 1) :
    (getNhiEligibility p1).threshold_mgdl = some 130 ∧
    (getNhiEligibility p2).threshold_mgdl = some 160 ∧
    (130 : ℚ) ≤ 160 := by
  refine ⟨((primary_prevention_tiers p1 l1 hl1 hp1).1 hc1).1,
    ((primary_prevention_tiers p2 l2 hl2 hp2).2.1 hc2).1, by norm_num⟩

/-- C9 witness: the monotonicity theorem applied at two concrete primary
records, one with two risk factors (male 47 with hypertension), one with
one (hypertension only). -/
theorem primary_threshold_monotone_witness :
    countNhiRiskFactors { nhiP0 with sex := some "M", age := some 47, hasHTN := true, LDL := .num 135 } = 2 ∧
    countNhiRiskFactors { nhiP0 with hasHTN := true, LDL := .num 150 } = 1 ∧
    ((getNhiEligibility { nhiP0 with sex := some "M", age := some 47, hasHTN := true, LDL := .num 135 }).threshold_mgdl = some 130 ∧
     (getNhiEligibility { nhiP0 with hasHTN := true, LDL := .num 150 }).threshold_mgdl = some 160 ∧
     (130 : ℚ) ≤ 160) :=
  ⟨by decide, by decide,
    primary_threshold_monotone
      { nhiP0 with sex := some "M", age := some 47, hasHTN := true, LDL := .num 135 }
      { nhiP0 with hasHTN := true, LDL := .num 150 }
      135 150 rfl rfl rfl rfl (by decide) (by decide)⟩

/-- C10: soundness of every eligibility verdict: whenever
`getNhiEligibility` returns `eligible = true`, a parsed lipid value is
present, the applied threshold is one of 70 / 130 / 160, the lipid value
is ≥ that threshold, and the threshold is in particular not left unknown
(so eligibility is never granted with an unknown threshold). -/
theorem eligibility_sound (p : NhiPatient)
    (h : (getNhiEligibility p).eligible = true) :
    (∃ l t : ℚ, (getNhiEligibility p).ldl_mgdl = some l ∧
      (getNhiEligibility p).threshold_mgdl = some t ∧
      (t = 70 ∨ t = 130 ∨ t = 160) ∧ t ≤ l) ∧
    (getNhiEligibility p).threshold_mgdl ≠ none := by
  unfold getNhiEligibility at h ⊢
  rcases hldl : parseLdlMgdl p.LDL with _ | l
  · rw [hldl] at h
    simp at h
  · rw [hldl] at h
    by_cases hs : isSecondary p = true
    · have h70 : (70 : ℚ) ≤ l := by simpa [hs] using h
      exact ⟨⟨l, 70, by simp [hs], by simp [hs], Or.inl rfl, h70⟩, by simp [hs]⟩
    · by_cases h2 : 2 ≤ countNhiRiskFactors p
      · have h130 : (130 : ℚ) ≤ l := by simpa [hs, h2] using h
        exact ⟨⟨l, 130, by simp [hs, h2], by simp [hs, h2],
          Or.inr (Or.inl rfl), h130⟩, by simp [hs, h2]⟩
      · by_cases h1 : 1 ≤ countNhiRiskFactors p
        · have h160 : (160 : ℚ) ≤ l := by simpa [hs, h2, h1] using h
          exact ⟨⟨l, 160, by simp [hs, h2, h1], by simp [hs, h2, h1],
            Or.inr (Or.inr rfl), h160⟩, by simp [hs, h2, h1]⟩
        · simp [hs, h2, h1] at h

/-- C10 witness: the soundness theorem applied at a concrete eligible
record (secondary prevention, LDL 92). -/
theorem eligibility_sound_witness :
    (getNhiEligibility { nhiP0 with hasPCI := true, LDL := .num 92 }).eligible = true ∧
    ((∃ l t : ℚ,
        (getNhiEligibility { nhiP0 with hasPCI := true, LDL := .num 92 }).ldl_mgdl = some l ∧
        (getNhiEligibility { nhiP0 with hasPCI := true, LDL := .num 92 }).threshold_mgdl = some t ∧
        (t = 70 ∨ t = 130 ∨ t = 160) ∧ t ≤ l) ∧
      (getNhiEligibility { nhiP0 with hasPCI := true, LDL := .num 92 }).threshold_mgdl ≠ none) :=
  ⟨by decide, eligibility_sound { nhiP0 with hasPCI := true, LDL := .num 92 } (by decide)⟩

/-- The Scenario E narrative of the specification. -/
def scenarioESoap : String :=
  "65-year-old male, status post coronary stent, LDL 92"

/-- C6 counterexample: the claim asserts that the extractor recovers age 65
from the Scenario E narrative, but the compact age/sex pattern
`\\b(\\d{1,3})\\s*(y\\/o|yo|yr|yrs|year|years)?\\s*(m|f)\\b` cannot cross the
hyphens of "65-year-old" and the text carries no `age:` label, so the
extracted age is unknown, not 65. -/
theorem scenarioE_age_not_extracted :
    (extractPatientStateFromSoap scenarioESoap).age ≠ some 65 := by decide

/-- C6 amended: on the Scenario E narrative the extractor returns age
unknown (the compact pattern does not match "65-year-old"), sex M, the
PCI/revascularization flag true, and lipid value 92, and the SOAP-level
eligibility wrapper returns secondary prevention with `eligible = true`. -/
theorem scenarioE_extraction_and_eligibility :
    (extractPatientStateFromSoap scenarioESoap).age = none ∧
    (extractPatientStateFromSoap scenarioESoap).sex = some "M" ∧
    (extractPatientStateFromSoap scenarioESoap).hasPCI = true ∧
    (extractPatientStateFromSoap scenarioESoap).LDL = some 92 ∧
    (getNhiEligibilityFromSoap scenarioESoap).category = "secondary_prevention" ∧
    (getNhiEligibilityFromSoap scenarioESoap).eligible = true := by decide

end ClinicSoap
